/-
  Verification of the multi-tenant HR onboarding backend
  (AkashKumar7902/go-onboarding-app) against its natural-language
  specification.

  Shallow embedding: the Go services, handlers and middleware are
  translated into executable Lean definitions.  MongoDB collections are
  modelled as lists of documents; external collaborators (bcrypt hashing,
  JWT signing, the system clock, RFC3339 date parsing) are passed in as
  function parameters, mirroring the spec's "external collaborator"
  treatment.  ObjectIDs are modelled as natural numbers together with a
  faithful model of primitive.ObjectIDFromHex (24 hex characters).
-/
import Mathlib

namespace Onboarding

/-! ## ObjectIDs (go.mongodb.org/mongo-driver/bson/primitive)

An ObjectID is a 12-byte value; we model it as a `Nat`.  The Go zero
value `primitive.NilObjectID` is modelled as `0`.  `ObjectIDFromHex`
succeeds exactly on 24-character hexadecimal strings. -/

abbrev ObjectID := Nat

/-- The Go zero value `primitive.NilObjectID`. -/
def nilObjectID : ObjectID := 0

def isHexDigitChar (c : Char) : Bool :=
  (decide ('0' ≤ c) && decide (c ≤ '9')) ||
  (decide ('a' ≤ c) && decide (c ≤ 'f')) ||
  (decide ('A' ≤ c) && decide (c ≤ 'F'))

def hexDigitVal (c : Char) : Nat :=
  if decide ('0' ≤ c) && decide (c ≤ '9') then c.toNat - '0'.toNat
  else if decide ('a' ≤ c) && decide (c ≤ 'f') then c.toNat - 'a'.toNat + 10
  else if decide ('A' ≤ c) && decide (c ≤ 'F') then c.toNat - 'A'.toNat + 10
  else 0

/-- Model of `primitive.ObjectIDFromHex`: decodes a 24-character hex
string; any other string is rejected (`invalid id format` at call
sites that check the error). -/
def objectIDFromHex (s : String) : Option ObjectID :=
  if s.length == 24 && s.data.all isHexDigitChar then
    some (s.data.foldl (fun a c => a * 16 + hexDigitVal c) 0)
  else
    none

/-- Hex digit for rendering (lowercase, as `ObjectID.Hex()` produces). -/
def hexDigitChar (n : Nat) : Char :=
  if n < 10 then Char.ofNat ('0'.toNat + n)
  else Char.ofNat ('a'.toNat + (n - 10))

def toHexAux : Nat → Nat → List Char
  | 0, _ => []
  | k + 1, n => toHexAux k (n / 16) ++ [hexDigitChar (n % 16)]

/-- Model of `primitive.ObjectID.Hex()`: 24 lowercase hex characters. -/
def objectIDHex (n : ObjectID) : String :=
  String.mk (toHexAux 24 n)

/-! ## JSON values and payloads

`CreateEmployeeHandler` binds the request body to a
`map[string]interface{}`.  We model the interface values that matter to
the handler: strings and everything else (numbers, booleans, null,
arrays, objects), since the only operations performed are equality with
`""` (true only for the string `""`) and `.(string)` type assertions. -/

inductive JsonVal where
  | str (s : String)
  | nonString
  deriving DecidableEq, Repr

/-- The bound `map[string]interface{}` payload, as an association list. -/
abbrev Payload := List (String × JsonVal)

/-! ## Dynamic Employee Validator (api handlers, `CreateEmployeeHandler`) -/

/-- The `requiredFieldsMap` literal from `CreateEmployeeHandler`:
which employee fields are tied to which tenant entity permissions. -/
def requiredFieldsMap : List (String × String) :=
  [("locations", "locationId"),
   ("departments", "departmentId"),
   ("managers", "managerId"),
   ("job-roles", "jobRoleId"),
   ("employment-types", "employmentTypeId"),
   ("teams", "teamId"),
   ("cost-centers", "costCenterId"),
   ("hardware-assets", "hardwareAssetId"),
   ("onboarding-buddies", "onboardingBuddyId"),
   ("access-levels", "accessLevelId")]

/-- The Go check `if val, ok := employeeData[f]; !ok || val == ""`:
a field is missing when absent from the payload or equal to the empty
string (interface equality with `""` holds only for the string `""`). -/
def fieldMissing (payload : Payload) (f : String) : Bool :=
  match payload.lookup f with
  | none => true
  | some v => v == JsonVal.str ""

/-- The dynamic part of the validation loop:
`for _, enabledEntity := range tenant.EnabledEntities { ... }`,
appending the mapped field name whenever the slug has a mapping and the
field is missing from the payload. -/
def gatedMissingFields (enabled : List String) (payload : Payload) : List String :=
  enabled.foldl
    (fun acc slug =>
      match requiredFieldsMap.lookup slug with
      | some fieldName =>
          if fieldMissing payload fieldName then acc ++ [fieldName] else acc
      | none => acc)
    []

/-- The complete `missingFields` list computed by `CreateEmployeeHandler`:
the fundamental fields firstName, lastName, email first, then the
tenant-gated fields in enabled-list order. -/
def missingFields (enabled : List String) (payload : Payload) : List String :=
  (let m0 : List String := []
   let m1 := if fieldMissing payload "firstName" then m0 ++ ["firstName"] else m0
   let m2 := if fieldMissing payload "lastName" then m1 ++ ["lastName"] else m1
   if fieldMissing payload "email" then m2 ++ ["email"] else m2)
  ++ gatedMissingFields enabled payload

/-! ## Data model (models package) -/

/-- `models.Tenant`: identifier, display name, status, creation time,
enabled entity-module slugs.  `createdAt` is a `primitive.DateTime`
(millisecond timestamp), modelled as `Int`. -/
structure Tenant where
  id : ObjectID
  name : String
  status : String
  createdAt : Int
  enabledEntities : List String
  deriving DecidableEq, Repr

/-- `models.User`: identifier, username, password hash, tenant id (hex
string), role. -/
structure UserRec where
  id : ObjectID
  username : String
  password : String
  tenantId : String
  role : String
  deriving DecidableEq, Repr

/-- `models.Employee`.  Field defaults are Go's zero values, as produced
by `var employee models.Employee` in the handler. -/
structure Employee where
  id : ObjectID := nilObjectID
  firstName : String := ""
  lastName : String := ""
  email : String := ""
  phoneNumber : String := ""
  onboardingDate : Int := 0
  tenantId : String := ""
  locationId : ObjectID := nilObjectID
  departmentId : ObjectID := nilObjectID
  managerId : ObjectID := nilObjectID
  jobRoleId : ObjectID := nilObjectID
  employmentTypeId : ObjectID := nilObjectID
  teamId : ObjectID := nilObjectID
  costCenterId : ObjectID := nilObjectID
  hardwareAssetId : ObjectID := nilObjectID
  onboardingBuddyId : ObjectID := nilObjectID
  accessLevelId : ObjectID := nilObjectID
  deriving DecidableEq, Repr

/-! ## CreateEmployeeHandler: outcome and struct population -/

/-- The observable outcomes of `CreateEmployeeHandler`, one constructor
per distinct response the Go handler can produce (plus the runtime panic
a failed `.(string)` type assertion would raise). -/
inductive CreateEmployeeOutcome where
  /-- 500 "Could not verify tenant permissions". -/
  | internalTenantError
  /-- 400 "Missing required fields for your plan" with `missing_fields`. -/
  | missingFieldsError (fields : List String)
  /-- 400 "Invalid onboarding date format. Use RFC3339 format ...". -/
  | invalidDateFormat
  /-- 400 "onboardingDate must be a string". -/
  | dateNotString
  /-- 400 "Invalid format for &lt;field&gt;". -/
  | invalidRefFormat (field : String)
  /-- A Go `val.(string)` type assertion on a non-string value panics. -/
  | typeAssertionPanic
  /-- 201 with the created employee. -/
  | created (e : Employee)
  deriving DecidableEq, Repr

/-- A Go unchecked type assertion `val.(string)` on a payload value:
succeeds for strings, panics otherwise (an absent key yields a nil
interface, which also panics). -/
def assertString (payload : Payload) (f : String) :
    Except CreateEmployeeOutcome String :=
  match payload.lookup f with
  | some (JsonVal.str s) => Except.ok s
  | some JsonVal.nonString => Except.error CreateEmployeeOutcome.typeAssertionPanic
  | none => Except.error CreateEmployeeOutcome.typeAssertionPanic

/-- One optional reference field block of the handler:
`if val, ok := employeeData[f]; ok { id, err := ObjectIDFromHex(val.(string)); ... }`;
absent fields leave the zero ObjectID in place. -/
def parseRefField (payload : Payload) (fieldName : String) :
    Except CreateEmployeeOutcome ObjectID :=
  match payload.lookup fieldName with
  | none => Except.ok nilObjectID
  | some (JsonVal.str s) =>
      match objectIDFromHex s with
      | some oid => Except.ok oid
      | none => Except.error (CreateEmployeeOutcome.invalidRefFormat fieldName)
  | some JsonVal.nonString => Except.error CreateEmployeeOutcome.typeAssertionPanic

/-- Step 5 of `CreateEmployeeHandler`: populate `models.Employee` from the
validated payload.  `parseDate` models `time.Parse(time.RFC3339, ·)`
(external collaborator); `now` models `time.Now()`. -/
def buildEmployee (parseDate : String → Option Int) (now : Int)
    (tenantID : String) (payload : Payload) :
    Except CreateEmployeeOutcome Employee := do
  let firstName ← assertString payload "firstName"
  let lastName ← assertString payload "lastName"
  let email ← assertString payload "email"
  let phoneNumber ←
    match payload.lookup "phoneNumber" with
    | some (JsonVal.str s) => Except.ok s
    | some JsonVal.nonString => Except.error CreateEmployeeOutcome.typeAssertionPanic
    | none => Except.ok ""
  let onboardingDate ←
    match payload.lookup "onboardingDate" with
    | some (JsonVal.str s) =>
        match parseDate s with
        | some t => Except.ok t
        | none => Except.error CreateEmployeeOutcome.invalidDateFormat
    | some JsonVal.nonString => Except.error CreateEmployeeOutcome.dateNotString
    | none => Except.ok now
  let locationId ← parseRefField payload "locationId"
  let departmentId ← parseRefField payload "departmentId"
  let managerId ← parseRefField payload "managerId"
  let jobRoleId ← parseRefField payload "jobRoleId"
  let employmentTypeId ← parseRefField payload "employmentTypeId"
  let teamId ← parseRefField payload "teamId"
  let costCenterId ← parseRefField payload "costCenterId"
  let hardwareAssetId ← parseRefField payload "hardwareAssetId"
  let onboardingBuddyId ← parseRefField payload "onboardingBuddyId"
  let accessLevelId ← parseRefField payload "accessLevelId"
  Except.ok
    { firstName := firstName, lastName := lastName, email := email,
      phoneNumber := phoneNumber, onboardingDate := onboardingDate,
      tenantId := tenantID,
      locationId := locationId, departmentId := departmentId,
      managerId := managerId, jobRoleId := jobRoleId,
      employmentTypeId := employmentTypeId, teamId := teamId,
      costCenterId := costCenterId, hardwareAssetId := hardwareAssetId,
      onboardingBuddyId := onboardingBuddyId, accessLevelId := accessLevelId }

/-- `CreateEmployeeHandler` (api handlers file).  `tenantID` is the JWT
context value; `tenantLoad` is the result of the tenants-collection
`FindOne` on it (`none` models a load error); `freshId` is the ObjectID
that `services.CreateEmployee` assigns before inserting.  The JSON bind
step is upstream of this model (the payload arrives already parsed). -/
def createEmployeeHandler (parseDate : String → Option Int) (now : Int)
    (freshId : ObjectID) (tenantID : String) (tenantLoad : Option Tenant)
    (payload : Payload) : CreateEmployeeOutcome :=
  match tenantLoad with
  | none => CreateEmployeeOutcome.internalTenantError
  | some tenant =>
      let missing := missingFields tenant.enabledEntities payload
      if missing.isEmpty then
        match buildEmployee parseDate now tenantID payload with
        | Except.error e => e
        | Except.ok emp => CreateEmployeeOutcome.created { emp with id := freshId }
      else
        CreateEmployeeOutcome.missingFieldsError missing

/-! ## Generic Entity Repository (services/generic_service.go)

A MongoDB collection is a list of documents; the entity body other than
`_id` and `tenantId` is opaque (`payload`).  `FindOne` returns the first
match, `UpdateOne`/`DeleteOne` affect the first match. -/

structure Doc where
  id : ObjectID
  tenantId : String
  payload : String
  deriving DecidableEq, Repr

abbrev Collection := List Doc

def docMatches (objID : ObjectID) (tenantID : String) (d : Doc) : Bool :=
  d.id == objID && d.tenantId == tenantID

/-- `UpdateOne` document rewrite: replace the first matching document. -/
def updateFirst (p : Doc → Bool) (f : Doc → Doc) : Collection → Collection
  | [] => []
  | d :: rest => if p d then f d :: rest else d :: updateFirst p f rest

/-- `DeleteOne`: remove the first matching document. -/
def deleteFirst (p : Doc → Bool) : Collection → Collection
  | [] => []
  | d :: rest => if p d then rest else d :: deleteFirst p rest

/-- `CreateEntity`: marshal the entity, inject a fresh `_id`, insert.
The handler has already forced the entity's tenant field to the
authenticated tenant, so the document carries `tenantID`. -/
def createEntity (c : Collection) (freshId : ObjectID)
    (tenantID payload : String) : Doc × Collection :=
  let doc : Doc := { id := freshId, tenantId := tenantID, payload := payload }
  (doc, c ++ [doc])

/-- `GetEntityByID`: parse the hex id, then `FindOne` with the filter
`{_id: objID, tenantId: tenantID}`. -/
def getEntityByID (c : Collection) (id tenantID : String) :
    Except String Doc :=
  match objectIDFromHex id with
  | none => Except.error "invalid id format"
  | some objID =>
      match c.find? (docMatches objID tenantID) with
      | some d => Except.ok d
      | none => Except.error "entity not found or does not belong to this tenant"

/-- `UpdateEntity`: parse the hex id (rejecting malformed input), then
`UpdateOne` on `{_id: objID, tenantId: tenantID}`; `MatchedCount == 0`
yields the not-found error. -/
def updateEntity (c : Collection) (id tenantID : String)
    (newPayload : String) : Except String Collection :=
  match objectIDFromHex id with
  | none => Except.error "invalid id format"
  | some objID =>
      if c.any (docMatches objID tenantID) then
        Except.ok (updateFirst (docMatches objID tenantID)
          (fun d => { d with payload := newPayload }) c)
      else
        Except.error "entity not found or does not belong to this tenant"

/-- `DeleteEntity`: parse the hex id (rejecting malformed input), then
`DeleteOne`; `DeletedCount == 0` yields the not-found error. -/
def deleteEntity (c : Collection) (id tenantID : String) :
    Except String Collection :=
  match objectIDFromHex id with
  | none => Except.error "invalid id format"
  | some objID =>
      if c.any (docMatches objID tenantID) then
        Except.ok (deleteFirst (docMatches objID tenantID) c)
      else
        Except.error "entity not found or does not belong to this tenant"

/-! ## Employee service (services/employee_service.go)

`UpdateEmployee` and `DeleteEmployee` discard the `ObjectIDFromHex`
error (`objID, _ := ...`), so a malformed id leaves the Go zero
ObjectID in the filter. -/

/-- `UpdateEmployee`: `objID, _ := primitive.ObjectIDFromHex(id)` — the
parse error is discarded and the zero ObjectID is used in the filter. -/
def updateEmployee (c : Collection) (id tenantID : String)
    (newPayload : String) : Except String Collection :=
  let objID := (objectIDFromHex id).getD nilObjectID
  if c.any (docMatches objID tenantID) then
    Except.ok (updateFirst (docMatches objID tenantID)
      (fun d => { d with payload := newPayload }) c)
  else
    Except.error "employee not found or does not belong to this tenant"

/-- `DeleteEmployee`: same discarded parse error as `UpdateEmployee`. -/
def deleteEmployee (c : Collection) (id tenantID : String) :
    Except String Collection :=
  let objID := (objectIDFromHex id).getD nilObjectID
  if c.any (docMatches objID tenantID) then
    Except.ok (deleteFirst (docMatches objID tenantID) c)
  else
    Except.error "employee not found or does not belong to this tenant"

/-! ## Tenant signup (services/tenant_service.go) -/

/-- `TenantSignupData` from the public signup form. -/
structure TenantSignupData where
  companyName : String
  username : String
  password : String
  deriving DecidableEq, Repr

/-- The `defaultEntities` literal in `CreateTenantAndAdminUser`
(spellings as in the source, including "employement-types", "costs" and
"onboarding-buddy"). -/
def defaultEnabledEntities : List String :=
  ["employees",
   "locations",
   "departments",
   "managers",
   "job-roles",
   "employement-types",
   "teams",
   "costs",
   "hardware-assets",
   "onboarding-buddy",
   "access-levels"]

/-- The tenants and users collections touched by signup. -/
structure DBState where
  tenants : List Tenant
  users : List UserRec
  deriving DecidableEq, Repr

/-- `tenantCollection.DeleteOne(ctx, bson.M{"_id": id})`: removes the
first tenant document with that id. -/
def deleteOneTenantById : List Tenant → ObjectID → List Tenant
  | [], _ => []
  | t :: rest, tid => if t.id == tid then rest else t :: deleteOneTenantById rest tid

/-- `CreateTenantAndAdminUser`: insert the tenant with the default
enabled-entity list; hash the password (`hash` models bcrypt, which can
fail); insert the admin user.  The users collection has a unique index
on username (Document Store collaborator contract), so inserting a
duplicate username fails with duplicate-key error 11000; on any user
insert failure the tenant insert is compensated by a delete. -/
def createTenantAndAdminUser (hash : String → Option String) (now : Int)
    (newTenantId newUserId : ObjectID) (st : DBState)
    (signupData : TenantSignupData) :
    DBState × Except String (Tenant × UserRec) :=
  let newTenant : Tenant :=
    { id := newTenantId, name := signupData.companyName, status := "active",
      createdAt := now, enabledEntities := defaultEnabledEntities }
  let st1 : DBState := { st with tenants := st.tenants ++ [newTenant] }
  match hash signupData.password with
  | none =>
      ({ st1 with tenants := deleteOneTenantById st1.tenants newTenantId },
       Except.error "failed to process user credentials")
  | some hashedPassword =>
      if st1.users.any (fun u => u.username == signupData.username) then
        ({ st1 with tenants := deleteOneTenantById st1.tenants newTenantId },
         Except.error "username already exists")
      else
        let adminUser : UserRec :=
          { id := newUserId, username := signupData.username,
            password := hashedPassword,
            tenantId := objectIDHex newTenantId, role := "admin" }
        ({ st1 with users := st1.users ++ [adminUser] },
         Except.ok (newTenant, adminUser))

/-! ## Access middleware (auth/jwt.go, RequireEntityAccess) -/

/-- The observable outcomes of the `RequireEntityAccess` middleware. -/
inductive AccessOutcome where
  /-- 500 "Could not verify tenant permissions". -/
  | internalError
  /-- 403 "Access to this feature is not enabled for your account.". -/
  | forbidden
  /-- `c.Next()`: the request proceeds to the handler. -/
  | allowed
  deriving DecidableEq, Repr

/-- `RequireEntityAccess(entitySlug)`: `tenantLoad` is the result of
the tenants-collection `FindOne` (`none` models a load error); the
`isAllowed` loop is membership of the slug in `EnabledEntities`. -/
def requireEntityAccess (entitySlug : String) (tenantLoad : Option Tenant) :
    AccessOutcome :=
  match tenantLoad with
  | none => AccessOutcome.internalError
  | some tenant =>
      let isAllowed := tenant.enabledEntities.any (fun e => e == entitySlug)
      if isAllowed then AccessOutcome.allowed else AccessOutcome.forbidden

/-! ## Login (services/user_service.go, LoginUser) -/

/-- `LoginUser`: `FindOne` on username, then bcrypt comparison
(`checkPasswordHash` collaborator), then JWT issuance (`generateToken`
collaborator over the user id hex and tenant id). -/
def loginUser (checkPasswordHash : String → String → Bool)
    (generateToken : String → String → String)
    (users : List UserRec) (username password : String) :
    Except String String :=
  match users.find? (fun u => u.username == username) with
  | none => Except.error "invalid username or password"
  | some user =>
      if !(checkPasswordHash password user.password) then
        Except.error "invalid username or password"
      else
        Except.ok (generateToken (objectIDHex user.id) user.tenantId)

/-! ## Route table (api/router.go, SetupRouter)

For the route-wiring claim we record, for each dynamic-entity resource,
which DELETE handler `createEntityRoutes` receives, and for each DELETE
handler which collection its `DeleteEntity` call targets. -/

inductive DeleteHandlerTag where
  | deleteLocation
  | deleteDepartment
  | deleteManager
  | deleteJobRole
  | deleteEmploymentType
  | deleteTeam
  | deleteCostCenter
  | deleteHardwareAsset
  | deleteOnboardingBuddy
  | deleteAccessLevel
  deriving DecidableEq, Repr

/-- The collection each DELETE handler passes to `services.DeleteEntity`
(from the handler bodies in the api handlers file). -/
def deleteHandlerCollection : DeleteHandlerTag → String
  | DeleteHandlerTag.deleteLocation => "locations"
  | DeleteHandlerTag.deleteDepartment => "departments"
  | DeleteHandlerTag.deleteManager => "managers"
  | DeleteHandlerTag.deleteJobRole => "job_roles"
  | DeleteHandlerTag.deleteEmploymentType => "employment_types"
  | DeleteHandlerTag.deleteTeam => "teams"
  | DeleteHandlerTag.deleteCostCenter => "cost_centers"
  | DeleteHandlerTag.deleteHardwareAsset => "hardware_assets"
  | DeleteHandlerTag.deleteOnboardingBuddy => "onboarding_buddies"
  | DeleteHandlerTag.deleteAccessLevel => "access_levels"

/-- The `createEntityRoutes` calls in `SetupRouter`: resource path
segment paired with the DELETE handler argument, row for row. -/
def entityDeleteRoutes : List (String × DeleteHandlerTag) :=
  [("locations", DeleteHandlerTag.deleteLocation),
   ("departments", DeleteHandlerTag.deleteDepartment),
   ("managers", DeleteHandlerTag.deleteManager),
   ("job-roles", DeleteHandlerTag.deleteJobRole),
   ("employement-types", DeleteHandlerTag.deleteEmploymentType),
   ("teams", DeleteHandlerTag.deleteTeam),
   ("costs", DeleteHandlerTag.deleteCostCenter),
   ("hardware-assets", DeleteHandlerTag.deleteAccessLevel),
   ("onboarding-buddy", DeleteHandlerTag.deleteOnboardingBuddy),
   ("access-levels", DeleteHandlerTag.deleteAccessLevel)]

/-! ## Concrete test fixtures -/

/-- A 24-hex-character identifier string decoding to ObjectID 1. -/
def hexOne : String := "000000000000000000000001"

/-- An Employee payload carrying only the three fundamental fields. -/
def payloadBasicsOnly : Payload :=
  [("firstName", JsonVal.str "Ann"), ("lastName", JsonVal.str "Lee"),
   ("email", JsonVal.str "a@b.c")]

/-- An Employee payload carrying the three fundamental fields plus the
seven reference fields gated by the signup-default enabled-module
list. -/
def payloadDefaultTenantFull : Payload :=
  payloadBasicsOnly ++
  [("locationId", JsonVal.str hexOne), ("departmentId", JsonVal.str hexOne),
   ("managerId", JsonVal.str hexOne), ("jobRoleId", JsonVal.str hexOne),
   ("teamId", JsonVal.str hexOne), ("hardwareAssetId", JsonVal.str hexOne),
   ("accessLevelId", JsonVal.str hexOne)]

/-- A tenant created by signup: default enabled-module list. -/
def signupDefaultTenant : Tenant :=
  { id := 1, name := "Acme", status := "active", createdAt := 0,
    enabledEntities := defaultEnabledEntities }

/-- A tenant with exactly the modules "locations" and "departments"
enabled (the spec's dynamic-validation example). -/
def tenantLocDep : Tenant :=
  { id := 2, name := "LocDep", status := "active", createdAt := 0,
    enabledEntities := ["locations", "departments"] }

/-! ## Helper lemmas -/

/-- "Field `f` is mandatory for this tenant and missing from the payload":
`f` is one of the always-required fundamental fields, or some enabled
module slug maps to it in `requiredFieldsMap`; and the payload lacks it
(absent or empty string). -/
def mandatoryAndMissing (enabled : List String) (payload : Payload)
    (f : String) : Prop :=
  (f = "firstName" ∨ f = "lastName" ∨ f = "email" ∨
    ∃ slug ∈ enabled, requiredFieldsMap.lookup slug = some f) ∧
  fieldMissing payload f = true

theorem mem_gatedFold (payload : Payload) (enabled : List String)
    (acc : List String) (x : String) :
    (x ∈ enabled.foldl
      (fun acc slug =>
        match requiredFieldsMap.lookup slug with
        | some fieldName =>
            if fieldMissing payload fieldName then acc ++ [fieldName] else acc
        | none => acc) acc) ↔
    (x ∈ acc ∨ ∃ slug ∈ enabled,
        requiredFieldsMap.lookup slug = some x ∧ fieldMissing payload x = true) := by
  induction enabled generalizing acc with
  | nil => simp
  | cons s rest ih =>
      simp only [List.foldl_cons]
      cases hl : requiredFieldsMap.lookup s with
      | none =>
          simp only [hl, ih]
          constructor
          · rintro (hx | ⟨slug, hs, hlk, hm⟩)
            · exact Or.inl hx
            · exact Or.inr ⟨slug, List.mem_cons_of_mem _ hs, hlk, hm⟩
          · rintro (hx | ⟨slug, hs, hlk, hm⟩)
            · exact Or.inl hx
            · rcases List.mem_cons.mp hs with rfl | hs
              · rw [hl] at hlk; exact absurd hlk (by simp)
              · exact Or.inr ⟨slug, hs, hlk, hm⟩
      | some fn =>
          by_cases hm : fieldMissing payload fn = true
          · simp only [hl, hm, if_pos, ih, List.mem_append, List.mem_singleton]
            constructor
            · rintro ((hx | rfl) | ⟨slug, hs, hlk, hmx⟩)
              · exact Or.inl hx
              · exact Or.inr ⟨s, List.mem_cons_self _ _, hl, hm⟩
              · exact Or.inr ⟨slug, List.mem_cons_of_mem _ hs, hlk, hmx⟩
            · rintro (hx | ⟨slug, hs, hlk, hmx⟩)
              · exact Or.inl (Or.inl hx)
              · rcases List.mem_cons.mp hs with rfl | hs
                · rw [hl] at hlk
                  exact Or.inl (Or.inr (Option.some_injective _ hlk).symm)
                · exact Or.inr ⟨slug, hs, hlk, hmx⟩
          · simp only [hl, hm, if_neg, ih]
            constructor
            · rintro (hx | ⟨slug, hs, hlk, hmx⟩)
              · exact Or.inl hx
              · exact Or.inr ⟨slug, List.mem_cons_of_mem _ hs, hlk, hmx⟩
            · rintro (hx | ⟨slug, hs, hlk, hmx⟩)
              · exact Or.inl hx
              · rcases List.mem_cons.mp hs with rfl | hs
                · rw [hl] at hlk
                  rcases Option.some_injective _ hlk with rfl
                  exact absurd hmx hm
                · exact Or.inr ⟨slug, hs, hlk, hmx⟩

theorem mem_gatedMissingFields (enabled : List String) (payload : Payload)
    (x : String) :
    x ∈ gatedMissingFields enabled payload ↔
      ∃ slug ∈ enabled,
        requiredFieldsMap.lookup slug = some x ∧ fieldMissing payload x = true := by
  unfold gatedMissingFields
  rw [mem_gatedFold]
  simp

set_option maxHeartbeats 1600000 in
theorem mem_missingFields (enabled : List String) (payload : Payload)
    (x : String) :
    x ∈ missingFields enabled payload ↔ mandatoryAndMissing enabled payload x := by
  unfold missingFields mandatoryAndMissing
  rw [List.mem_append, mem_gatedMissingFields]
  by_cases h1 : fieldMissing payload "firstName" = true <;>
    by_cases h2 : fieldMissing payload "lastName" = true <;>
      by_cases h3 : fieldMissing payload "email" = true <;>
        simp only [h1, h2, h3, if_pos, if_neg, if_true, if_false,
          Bool.not_eq_true, List.nil_append, List.append_nil,
          List.mem_append, List.mem_singleton, List.not_mem_nil,
          false_or, or_false] <;>
        aesop

/-! ## Claim C7 -/

/-- C7: for every entity-scoped request, a tenant-record load failure
makes `RequireEntityAccess` fail with an internal error (never a
permission denial); a loaded tenant whose enabled-entity list lacks the
route's module slug yields Forbidden (never an internal error); and a
loaded tenant with the slug enabled proceeds to the handler. -/
theorem c7_access_middleware_outcomes :
    (∀ slug : String, requireEntityAccess slug none = AccessOutcome.internalError) ∧
    (∀ (slug : String) (tenant : Tenant), slug ∉ tenant.enabledEntities →
        requireEntityAccess slug (some tenant) = AccessOutcome.forbidden) ∧
    (∀ (slug : String) (tenant : Tenant), slug ∈ tenant.enabledEntities →
        requireEntityAccess slug (some tenant) = AccessOutcome.allowed) ∧
    AccessOutcome.internalError ≠ AccessOutcome.forbidden := by
  refine ⟨fun slug => rfl, ?_, ?_, by decide⟩
  · intro slug tenant h
    have hany : tenant.enabledEntities.any (fun e => e == slug) = false := by
      rw [List.any_eq_false]
      intro e he
      simp only [beq_iff_eq]
      rintro rfl
      exact h he
    simp [requireEntityAccess, hany]
  · intro slug tenant h
    have hany : tenant.enabledEntities.any (fun e => e == slug) = true := by
      rw [List.any_eq_true]
      exact ⟨slug, h, by simp⟩
    simp [requireEntityAccess, hany]

/-- Witness for C7 at concrete inputs. -/
theorem c7_access_middleware_outcomes_witness :
    requireEntityAccess "locations" none = AccessOutcome.internalError ∧
    requireEntityAccess "locations"
      (some { id := 1, name := "Acme", status := "active", createdAt := 0,
              enabledEntities := ["departments"] }) = AccessOutcome.forbidden ∧
    requireEntityAccess "locations"
      (some { id := 1, name := "Acme", status := "active", createdAt := 0,
              enabledEntities := ["locations"] }) = AccessOutcome.allowed :=
  ⟨c7_access_middleware_outcomes.1 "locations",
   c7_access_middleware_outcomes.2.1 "locations" _ (by decide),
   c7_access_middleware_outcomes.2.2.1 "locations" _ (by decide)⟩

/-! ## Claim C8 -/

/-- C8: in the route table, the DELETE handler wired to the
"hardware-assets" resource is the access-level delete handler, which
deletes from the `access_levels` collection, not `hardware_assets`. -/
theorem c8_hardware_asset_delete_miswired :
    entityDeleteRoutes.lookup "hardware-assets" =
      some DeleteHandlerTag.deleteAccessLevel ∧
    deleteHandlerCollection DeleteHandlerTag.deleteAccessLevel = "access_levels" ∧
    deleteHandlerCollection DeleteHandlerTag.deleteAccessLevel ≠ "hardware_assets" ∧
    deleteHandlerCollection DeleteHandlerTag.deleteHardwareAsset = "hardware_assets" := by
  refine ⟨by decide, rfl, by decide, rfl⟩

/-! ## Claim C9 -/

/-- C9: the two failing login paths — username matches no stored user,
and username exists but the password fails the stored-hash check —
return the identical error "invalid username or password", so the caller
cannot distinguish them. -/
theorem c9_login_failures_indistinguishable
    (check : String → String → Bool) (gen : String → String → String)
    (users1 users2 : List UserRec) (un1 p1 un2 p2 : String) (u : UserRec)
    (h1 : users1.find? (fun v => v.username == un1) = none)
    (h2 : users2.find? (fun v => v.username == un2) = some u)
    (h3 : check p2 u.password = false) :
    loginUser check gen users1 un1 p1 = Except.error "invalid username or password" ∧
    loginUser check gen users2 un2 p2 = Except.error "invalid username or password" ∧
    loginUser check gen users1 un1 p1 = loginUser check gen users2 un2 p2 := by
  unfold loginUser
  rw [h1, h2]
  simp [h3]

/-- Witness for C9 at concrete inputs: an empty user table versus a
table holding "bob" with a hash the checker rejects. -/
theorem c9_login_failures_indistinguishable_witness :
    loginUser (fun _ _ => false) (fun _ _ => "tok") [] "alice" "pw1" =
      loginUser (fun _ _ => false) (fun _ _ => "tok")
        [{ id := 1, username := "bob", password := "h", tenantId := "t",
           role := "member" }] "bob" "pw2" :=
  (c9_login_failures_indistinguishable (fun _ _ => false) (fun _ _ => "tok")
    [] [{ id := 1, username := "bob", password := "h", tenantId := "t",
          role := "member" }] "alice" "pw1" "bob" "pw2"
    { id := 1, username := "bob", password := "h", tenantId := "t",
      role := "member" }
    (by decide) (by decide) rfl).2.2

/-! ## Claim C10 -/

/-- C10: on a syntactically malformed identifier, `UpdateEmployee` and
`DeleteEmployee` discard the parse failure, query with the zero
ObjectID (which matches no stored document), and return the not-found
error with nothing modified; the generic `UpdateEntity` and
`DeleteEntity` instead reject the same identifier with the distinct
"invalid id format" error before touching the store. -/
theorem c10_employee_service_discards_parse_error
    (c : Collection) (id T p : String)
    (hmal : objectIDFromHex id = none)
    (hz : ∀ d ∈ c, d.id ≠ nilObjectID) :
    updateEmployee c id T p =
      Except.error "employee not found or does not belong to this tenant" ∧
    deleteEmployee c id T =
      Except.error "employee not found or does not belong to this tenant" ∧
    updateEntity c id T p = Except.error "invalid id format" ∧
    deleteEntity c id T = Except.error "invalid id format" ∧
    ("invalid id format" : String) ≠
      "employee not found or does not belong to this tenant" := by
  have hany : c.any (docMatches nilObjectID T) = false := by
    rw [List.any_eq_false]
    intro d hd
    unfold docMatches
    simp only [Bool.and_eq_true, beq_iff_eq, not_and]
    intro h
    exact absurd h (hz d hd)
  refine ⟨?_, ?_, ?_, ?_, by decide⟩
  · unfold updateEmployee
    simp [hmal, hany]
  · unfold deleteEmployee
    simp [hmal, hany]
  · unfold updateEntity
    rw [hmal]
  · unfold deleteEntity
    rw [hmal]

/-- Witness for C10 at concrete inputs: a one-document store and the
malformed identifier "not-a-hex-id". -/
theorem c10_employee_service_discards_parse_error_witness :
    updateEmployee [{ id := 1, tenantId := "t", payload := "x" }]
        "not-a-hex-id" "t" "y" =
      Except.error "employee not found or does not belong to this tenant" ∧
    updateEntity [{ id := 1, tenantId := "t", payload := "x" }]
        "not-a-hex-id" "t" "y" = Except.error "invalid id format" := by
  have h := c10_employee_service_discards_parse_error
    [{ id := 1, tenantId := "t", payload := "x" }] "not-a-hex-id" "t" "y"
    (by decide) (by decide)
  exact ⟨h.1, h.2.2.1⟩

/-! ## Claim C2 -/

/-- C2: creating an entity under tenant `T` and then calling getByID
with `T` and the returned identifier (any hex string decoding to it)
yields the created entity; getByID with the same identifier but a
different tenant yields the NotFound error. -/
theorem c2_create_then_getByID
    (c : Collection) (freshId : ObjectID) (T Tp payload s : String)
    (hfresh : ∀ d ∈ c, d.id ≠ freshId)
    (hs : objectIDFromHex s = some freshId)
    (hT : Tp ≠ T) :
    getEntityByID (createEntity c freshId T payload).2 s T =
      Except.ok (createEntity c freshId T payload).1 ∧
    getEntityByID (createEntity c freshId T payload).2 s Tp =
      Except.error "entity not found or does not belong to this tenant" := by
  unfold createEntity getEntityByID
  rw [hs]
  have hnone1 : c.find? (docMatches freshId T) = none := by
    rw [List.find?_eq_none]
    intro d hd
    unfold docMatches
    simp only [Bool.and_eq_true, beq_iff_eq, not_and]
    intro h
    exact absurd h (hfresh d hd)
  have hnone2 : c.find? (docMatches freshId Tp) = none := by
    rw [List.find?_eq_none]
    intro d hd
    unfold docMatches
    simp only [Bool.and_eq_true, beq_iff_eq, not_and]
    intro h
    exact absurd h (hfresh d hd)
  have hne : (T == Tp) = false := beq_eq_false_iff_ne.mpr (Ne.symm hT)
  constructor
  · simp [List.find?_append, hnone1, docMatches]
  · simp [List.find?_append, hnone2, docMatches, hne]

/-- Witness for C2 at concrete inputs: an empty store, tenants "a" and
"b", and the hex rendering of identifier 1. -/
theorem c2_create_then_getByID_witness :
    getEntityByID (createEntity [] 1 "a" "body").2
        "000000000000000000000001" "a" =
      Except.ok (createEntity [] 1 "a" "body").1 ∧
    getEntityByID (createEntity [] 1 "a" "body").2
        "000000000000000000000001" "b" =
      Except.error "entity not found or does not belong to this tenant" :=
  c2_create_then_getByID [] 1 "a" "b" "body" "000000000000000000000001"
    (by simp) (by decide) (by decide)

/-! ## Claim C3 -/

/-- C3 counterexample: the claim says the getByID failure carries no
information distinguishing a malformed identifier from a nonexistent
one, but the malformed case returns the distinct error
"invalid id format" while the nonexistent case returns
"entity not found or does not belong to this tenant". -/
theorem c3_counterexample :
    getEntityByID [] "not-a-hex-id" "t" = Except.error "invalid id format" ∧
    getEntityByID [] "000000000000000000000001" "t" =
      Except.error "entity not found or does not belong to this tenant" ∧
    ("invalid id format" : String) ≠
      "entity not found or does not belong to this tenant" :=
  ⟨rfl, rfl, by decide⟩

/-- C3 amended: getByID fails on all three inputs — malformed
identifier, nonexistent identifier, identifier owned by another tenant —
and the latter two produce the identical NotFound error (no tenant
enumeration through that error), while the malformed case produces the
distinct "invalid id format" error. -/
theorem c3_getByID_failure_modes :
    (∀ (c : Collection) (id T : String), objectIDFromHex id = none →
        getEntityByID c id T = Except.error "invalid id format") ∧
    (∀ (c : Collection) (id T : String) (objID : ObjectID),
        objectIDFromHex id = some objID →
        (∀ d ∈ c, ¬(d.id = objID ∧ d.tenantId = T)) →
        getEntityByID c id T =
          Except.error "entity not found or does not belong to this tenant") := by
  constructor
  · intro c id T h
    unfold getEntityByID
    rw [h]
  · intro c id T objID h hnone
    unfold getEntityByID
    rw [h]
    have : c.find? (docMatches objID T) = none := by
      rw [List.find?_eq_none]
      intro d hd
      unfold docMatches
      simp only [Bool.and_eq_true, beq_iff_eq]
      exact hnone d hd
    simp [this]

/-- Witness for C3-amended at concrete inputs: a malformed identifier,
and a store whose only document belongs to another tenant. -/
theorem c3_getByID_failure_modes_witness :
    getEntityByID [{ id := 1, tenantId := "other", payload := "x" }]
        "zz" "t" = Except.error "invalid id format" ∧
    getEntityByID [{ id := 1, tenantId := "other", payload := "x" }]
        "000000000000000000000001" "t" =
      Except.error "entity not found or does not belong to this tenant" :=
  ⟨c3_getByID_failure_modes.1 _ "zz" "t" (by decide),
   c3_getByID_failure_modes.2 _ "000000000000000000000001" "t" 1
     (by decide) (by decide)⟩

/-! ## Claim C6 -/

theorem deleteOneTenantById_append (ts : List Tenant) (t0 : Tenant)
    (htid : ∀ t ∈ ts, t.id ≠ t0.id) :
    deleteOneTenantById (ts ++ [t0]) t0.id = ts := by
  induction ts with
  | nil => simp [deleteOneTenantById]
  | cons t rest ih =>
      have hne : (t.id == t0.id) = false :=
        beq_eq_false_iff_ne.mpr (htid t (by simp))
      simp only [List.cons_append, deleteOneTenantById, hne, Bool.false_eq_true,
        if_false, List.cons.injEq, true_and]
      exact ih (fun v hv => htid v (List.mem_cons_of_mem _ hv))

/-- C6: a signup whose username duplicates an existing user's username
yields the ConflictError "username already exists" and leaves the
database exactly as it was: the Tenant inserted in the first step is
removed by the compensating delete, and no User is inserted. -/
theorem c6_duplicate_username_signup_rolls_back
    (hash : String → Option String) (now : Int)
    (newTenantId newUserId : ObjectID) (st : DBState)
    (signupData : TenantSignupData) (hp : String) (u : UserRec)
    (hhash : hash signupData.password = some hp)
    (hfresh : ∀ t ∈ st.tenants, t.id ≠ newTenantId)
    (hu : u ∈ st.users) (hname : u.username = signupData.username) :
    createTenantAndAdminUser hash now newTenantId newUserId st signupData =
      (st, Except.error "username already exists") := by
  unfold createTenantAndAdminUser
  rw [hhash]
  have hdup : st.users.any (fun v => v.username == signupData.username) = true :=
    List.any_eq_true.mpr ⟨u, hu, by simp [hname]⟩
  have hdel : deleteOneTenantById
      (st.tenants ++
        [{ id := newTenantId, name := signupData.companyName,
           status := "active", createdAt := now,
           enabledEntities := defaultEnabledEntities }]) newTenantId = st.tenants :=
    deleteOneTenantById_append st.tenants _ (fun t ht => hfresh t ht)
  simp [hdup, hdel]

/-- Witness for C6 at concrete inputs: one existing user "alice" and a
signup for the same username. -/
theorem c6_duplicate_username_signup_rolls_back_witness :
    createTenantAndAdminUser (fun _ => some "HH") 0 2 3
      { tenants := [],
        users := [{ id := 7, username := "alice", password := "h",
                    tenantId := "t", role := "admin" }] }
      { companyName := "Acme", username := "alice", password := "pw" } =
      ({ tenants := [],
         users := [{ id := 7, username := "alice", password := "h",
                     tenantId := "t", role := "admin" }] },
       Except.error "username already exists") :=
  c6_duplicate_username_signup_rolls_back (fun _ => some "HH") 0 2 3
    { tenants := [],
      users := [{ id := 7, username := "alice", password := "h",
                  tenantId := "t", role := "admin" }] }
    { companyName := "Acme", username := "alice", password := "pw" }
    "HH"
    { id := 7, username := "alice", password := "h", tenantId := "t",
      role := "admin" }
    rfl (by simp) (by simp) rfl

/-! ## Claim C1 -/

/-- C1 counterexample: the claim's "in particular" part says every one
of the ten reference fields is required for a tenant created by signup
with the default enabled-module list.  With the completely empty payload
(every field absent), employmentTypeId, costCenterId and
onboardingBuddyId are not reported missing — the default slugs
"employement-types", "costs" and "onboarding-buddy" match no key of
`requiredFieldsMap` — so those three fields are not mandatory. -/
theorem c1_counterexample :
    "employement-types" ∈ defaultEnabledEntities ∧
    "costs" ∈ defaultEnabledEntities ∧
    "onboarding-buddy" ∈ defaultEnabledEntities ∧
    "employmentTypeId" ∉ missingFields defaultEnabledEntities [] ∧
    "costCenterId" ∉ missingFields defaultEnabledEntities [] ∧
    "onboardingBuddyId" ∉ missingFields defaultEnabledEntities [] := by
  decide

/-- C1 amended: a reference field is mandatory at Employee creation iff
some slug in the tenant's enabled-module list maps to it in
`requiredFieldsMap`; for a signup-default tenant this makes exactly
seven of the ten reference fields mandatory (locationId, departmentId,
managerId, jobRoleId, teamId, hardwareAssetId, accessLevelId), because
the default slugs "employement-types", "costs" and "onboarding-buddy"
do not match the map keys "employment-types", "cost-centers" and
"onboarding-buddies". -/
theorem c1_required_iff_module_enabled :
    (∀ (enabled : List String) (payload : Payload) (f : String),
        f ∈ requiredFieldsMap.map Prod.snd →
        (f ∈ missingFields enabled payload ↔
          (∃ slug ∈ enabled, requiredFieldsMap.lookup slug = some f) ∧
            fieldMissing payload f = true)) ∧
    gatedMissingFields defaultEnabledEntities [] =
      ["locationId", "departmentId", "managerId", "jobRoleId", "teamId",
       "hardwareAssetId", "accessLevelId"] := by
  constructor
  · intro enabled payload f hf
    rw [mem_missingFields]
    unfold mandatoryAndMissing
    constructor
    · rintro ⟨(rfl | rfl | rfl | h), hm⟩
      · exact absurd hf (by decide)
      · exact absurd hf (by decide)
      · exact absurd hf (by decide)
      · exact ⟨h, hm⟩
    · rintro ⟨h, hm⟩
      exact ⟨Or.inr (Or.inr (Or.inr h)), hm⟩
  · decide

/-- Witness for C1-amended: with only "locations" enabled, a payload
lacking locationId reports it missing; with nothing enabled, it does
not. -/
theorem c1_required_iff_module_enabled_witness :
    "locationId" ∈ missingFields ["locations"] [] ∧
    "locationId" ∉ missingFields [] [] := by
  constructor
  · exact (c1_required_iff_module_enabled.1 ["locations"] [] "locationId"
      (by decide)).mpr ⟨⟨"locations", by decide, by decide⟩, by decide⟩
  · intro hmem
    have h := (c1_required_iff_module_enabled.1 [] [] "locationId"
      (by decide)).mp hmem
    rcases h with ⟨⟨slug, hs, _⟩, _⟩
    exact absurd hs (List.not_mem_nil slug)

/-! ## Claim C4 -/

/-- C4: a payload missing more than one mandatory field fails the whole
operation with a single response carrying the complete missing-fields
list: both missing fields appear in it, and the reported list contains
exactly the mandatory-and-missing fields (never just the first one). -/
theorem c4_reports_all_missing_fields
    (parseDate : String → Option Int) (now : Int) (freshId : ObjectID)
    (tenantID : String) (tenant : Tenant) (payload : Payload) (f g : String)
    (_hfg : f ≠ g)
    (hf : mandatoryAndMissing tenant.enabledEntities payload f)
    (hg : mandatoryAndMissing tenant.enabledEntities payload g) :
    ∃ ms,
      createEmployeeHandler parseDate now freshId tenantID (some tenant)
          payload = CreateEmployeeOutcome.missingFieldsError ms ∧
      f ∈ ms ∧ g ∈ ms ∧
      (∀ x, x ∈ ms ↔ mandatoryAndMissing tenant.enabledEntities payload x) := by
  refine ⟨missingFields tenant.enabledEntities payload, ?_, ?_, ?_, ?_⟩
  · have hfmem := (mem_missingFields tenant.enabledEntities payload f).mpr hf
    have hne : (missingFields tenant.enabledEntities payload).isEmpty = false := by
      cases hms : missingFields tenant.enabledEntities payload with
      | nil => rw [hms] at hfmem; exact absurd hfmem (List.not_mem_nil f)
      | cons a l => simp
    simp [createEmployeeHandler, hne]
  · exact (mem_missingFields tenant.enabledEntities payload f).mpr hf
  · exact (mem_missingFields tenant.enabledEntities payload g).mpr hg
  · exact fun x => mem_missingFields tenant.enabledEntities payload x

/-- Witness for C4: the spec's own example — modules
{"locations","departments"} enabled, payload with only the fundamental
fields — reports both locationId and departmentId in one response. -/
theorem c4_reports_all_missing_fields_witness :
    ∃ ms,
      createEmployeeHandler (fun _ => none) 0 0 "t" (some tenantLocDep)
          payloadBasicsOnly = CreateEmployeeOutcome.missingFieldsError ms ∧
      "locationId" ∈ ms ∧ "departmentId" ∈ ms ∧
      (∀ x, x ∈ ms ↔
        mandatoryAndMissing tenantLocDep.enabledEntities payloadBasicsOnly x) :=
  c4_reports_all_missing_fields (fun _ => none) 0 0 "t" tenantLocDep
    payloadBasicsOnly "locationId" "departmentId" (by decide)
    (by constructor
        · exact Or.inr (Or.inr (Or.inr ⟨"locations", by decide, by decide⟩))
        · decide)
    (by constructor
        · exact Or.inr (Or.inr (Or.inr ⟨"departments", by decide, by decide⟩))
        · decide)

/-! ## Claim C5 -/

/-- C5 counterexample: for a tenant created by signup with the default
enabled-module list, a payload containing only non-empty firstName,
lastName and email does NOT succeed — the handler rejects it, listing
the seven module-gated reference fields as missing. -/
theorem c5_counterexample :
    createEmployeeHandler (fun _ => none) 0 0 "t" (some signupDefaultTenant)
        payloadBasicsOnly =
      CreateEmployeeOutcome.missingFieldsError
        ["locationId", "departmentId", "managerId", "jobRoleId", "teamId",
         "hardwareAssetId", "accessLevelId"] := by
  decide

/-- C5 amended: for a tenant with the signup-default enabled-module
list, the basics-only payload is rejected with the seven gated fields
missing; a payload that additionally supplies those seven reference
identifiers succeeds, and the created Employee has phoneNumber
defaulted to the empty string and onboardingDate defaulted to the
current time at the moment of request handling. -/
theorem c5_default_tenant_creation_defaults
    (parseDate : String → Option Int) (now : Int) (freshId : ObjectID)
    (tenantID : String) (tenant : Tenant)
    (h : tenant.enabledEntities = defaultEnabledEntities) :
    createEmployeeHandler parseDate now freshId tenantID (some tenant)
        payloadDefaultTenantFull =
      CreateEmployeeOutcome.created
        { id := freshId, firstName := "Ann", lastName := "Lee",
          email := "a@b.c", phoneNumber := "", onboardingDate := now,
          tenantId := tenantID,
          locationId := 1, departmentId := 1, managerId := 1, jobRoleId := 1,
          employmentTypeId := 0, teamId := 1, costCenterId := 0,
          hardwareAssetId := 1, onboardingBuddyId := 0, accessLevelId := 1 } := by
  obtain ⟨tid, tname, tstatus, tcreated, ten⟩ := tenant
  simp only at h
  subst h
  rfl

/-- Witness for C5-amended at concrete inputs. -/
theorem c5_default_tenant_creation_defaults_witness :
    createEmployeeHandler (fun _ => none) 42 9 "tid"
        (some signupDefaultTenant) payloadDefaultTenantFull =
      CreateEmployeeOutcome.created
        { id := 9, firstName := "Ann", lastName := "Lee",
          email := "a@b.c", phoneNumber := "", onboardingDate := 42,
          tenantId := "tid",
          locationId := 1, departmentId := 1, managerId := 1, jobRoleId := 1,
          employmentTypeId := 0, teamId := 1, costCenterId := 0,
          hardwareAssetId := 1, onboardingBuddyId := 0, accessLevelId := 1 } :=
  c5_default_tenant_creation_defaults (fun _ => none) 42 9 "tid"
    signupDefaultTenant rfl

end Onboarding
